import Mathlib

/-!
Shallow embedding of the order-sizing, order-sequencing and reconciliation
logic of `src/bot.py` (class `MultiPairScalpingTrader`), with the theorems
checking the specification's claims about it.

Prices and quantities are modelled as rationals; Python's `round` built-in
is modelled as round-half-to-even at a decimal precision.  The exchange
gateway (Binance client) is modelled as an explicit oracle record, and the
in-process `self.active_trades` dictionary as an association list.
-/

namespace Sniper

/-- Round-half-to-even of a rational to an integer, matching the tie
behaviour of Python's built-in `round`. -/
def rhe (x : ℚ) : ℤ :=
  let f := Int.floor x
  let frac := x - f
  if frac < 1/2 then f
  else if 1/2 < frac then f + 1
  else if 2 ∣ f then f else f + 1

/-- Python's `round(x, p)` for non-negative `p`: round-half-to-even at `p`
decimal digits. -/
def pyRound (x : ℚ) (p : ℕ) : ℚ :=
  (rhe (x * 10 ^ p) : ℚ) / 10 ^ p

/-- `self.trade_size_usd = 150` (bot.py line 21). -/
def trade_size_usd : ℚ := 150

/-- `self.scalp_take_profit = 0.008` (bot.py line 24). -/
def scalp_take_profit : ℚ := 8/1000

/-- `self.scalp_stop_loss = 0.005` (bot.py line 25). -/
def scalp_stop_loss : ℚ := 5/1000

/-- `self.max_concurrent_trades = 3` (bot.py line 28). -/
def max_concurrent_trades : ℕ := 3

/-- `get_minimum_quantity` (bot.py lines 151-159): hardcoded per-pair
minimum quantities with default `0.01`. -/
def get_minimum_quantity (pair : String) : ℚ :=
  if pair = "ADAUSDT" ∨ pair = "XRPUSDT" ∨ pair = "DOGEUSDT" ∨
     pair = "TRXUSDT" ∨ pair = "MATICUSDT" then 1
  else if pair = "ETHUSDT" then 1/1000
  else if pair = "BNBUSDT" ∨ pair = "SOLUSDT" ∨ pair = "LTCUSDT" then 1/100
  else if pair = "AVAXUSDT" ∨ pair = "DOTUSDT" ∨ pair = "LINKUSDT" ∨
          pair = "ATOMUSDT" then 1/10
  else 1/100

/-- The per-pair precision caches `self.quantity_precision` and
`self.price_precision` populated by `load_symbol_precision`; `none` models
a pair absent from the dictionary. -/
structure Precisions where
  qty : String → Option ℕ
  price : String → Option ℕ

/-- `get_quantity` (bot.py lines 103-149).  `base_quantity` is rounded to
the pair's quantity precision (default 2); Python's `int()` cast for
precision 0 is the identity here because the rounded value is already
integral.  The "adjust upward" branch (lines 124-133) recomputes
`round(trade_size_usd / price, precision)`, which is numerically the same
value again; it is kept to mirror the source.  Finally the hardcoded
per-pair minimum quantity is enforced (lines 136-139).  The `except`
fallback (line 149) is unreachable in this pure model. -/
def get_quantity (pre : Precisions) (pair : String) (price : ℚ) : ℚ :=
  let base_quantity := trade_size_usd / price
  let p := (pre.qty pair).getD 2
  let quantity := pyRound base_quantity p
  let trade_value := quantity * price
  let quantity2 :=
    if trade_value < trade_size_usd * (8/10) then
      pyRound (trade_size_usd / price) p
    else quantity
  let min_qty := get_minimum_quantity pair
  if quantity2 < min_qty then min_qty else quantity2

/-- `format_price` (bot.py lines 161-164): round to the pair's price
precision, default 4. -/
def format_price (pre : Precisions) (pair : String) (price : ℚ) : ℚ :=
  pyRound price ((pre.price pair).getD 4)

/-- Flooring to the nearest multiple of a step, as the specification's
normalization step 3 describes ("floor to the nearest multiple of
`quantityStep`").  Modelled from the spec for comparison with
`get_quantity`, which instead uses `pyRound`. -/
def specFloorToStep (q step : ℚ) : ℚ :=
  (Int.floor (q / step) : ℚ) * step

/-- Trade direction, the `direction` field of an AI decision. -/
inductive Direction
  | LONG
  | SHORT
deriving DecidableEq, Repr

/-- Binance order side. -/
inductive Side
  | BUY
  | SELL
deriving DecidableEq, Repr

/-- The order types `execute_scalping_trade` submits. -/
inductive OType
  | MARKET
  | STOP_MARKET
  | LIMIT
deriving DecidableEq, Repr

/-- One `futures_create_order` request, with the keyword arguments the bot
passes. -/
structure OrderReq where
  symbol : String
  side : Side
  otype : OType
  quantity : ℚ
  price : Option ℚ
  stopPrice : Option ℚ
  reduceOnly : Bool
deriving DecidableEq, Repr

/-- One entry of `self.active_trades` (bot.py lines 811-820); the
`entry_time` wall-clock field carries no control flow and is omitted. -/
structure TradeInfo where
  direction : Direction
  entry_price : ℚ
  quantity : ℚ
  stop_loss : ℚ
  take_profit : ℚ
  confidence : ℚ
deriving DecidableEq, Repr

/-- The `self.active_trades` dictionary, as an association list. -/
abbrev Registry := List (String × TradeInfo)

/-- Dictionary lookup on the registry. -/
def lookupTrade (pair : String) : Registry → Option TradeInfo
  | [] => none
  | (p, t) :: rest => if p = pair then some t else lookupTrade pair rest

/-- The fields of an AI decision that `execute_scalping_trade` actually
reads: `pair`, `direction` and `confidence`.  The decision's own
`entry_price`, `stop_loss` and `take_profit` are never consulted there. -/
structure Decision where
  pair : String
  direction : Direction
  confidence : ℚ

/-- Oracle for the exchange-gateway calls one run of
`execute_scalping_trade` makes: the ticker price, the outcome of the
market entry (`none` = the call raises, `some avg` = it returns with
`avgPrice` parsed as `avg`), and whether the stop-loss and take-profit
placements succeed. -/
structure Gateway where
  ticker : ℚ
  entryResult : Option ℚ
  slOk : Bool
  tpOk : Bool

/-- `entry_price` as validated at bot.py lines 677-698: the reported
average fill price, unless it is ≤ 0.1, in which case the pre-submission
ticker price is used instead. -/
def entryPriceOf (gw : Gateway) (avg : ℚ) : ℚ :=
  if avg ≤ 1/10 then gw.ticker else avg

/-- Raw stop-loss level (bot.py lines 702, 706). -/
def slRaw : Direction → ℚ → ℚ
  | .LONG, e => e * (1 - scalp_stop_loss)
  | .SHORT, e => e * (1 + scalp_stop_loss)

/-- Raw take-profit level (bot.py lines 703, 707). -/
def tpRaw : Direction → ℚ → ℚ
  | .LONG, e => e * (1 + scalp_take_profit)
  | .SHORT, e => e * (1 - scalp_take_profit)

/-- Final stop-loss after price formatting and side validation (bot.py
lines 711, 720-723, 729-732): format, and if the formatted level is on
the wrong side of the entry, recalculate and format again. -/
def slFinal (pre : Precisions) (pair : String) : Direction → ℚ → ℚ
  | .LONG, e =>
    let s := format_price pre pair (slRaw .LONG e)
    if e ≤ s then format_price pre pair (slRaw .LONG e) else s
  | .SHORT, e =>
    let s := format_price pre pair (slRaw .SHORT e)
    if s ≤ e then format_price pre pair (slRaw .SHORT e) else s

/-- Final take-profit after price formatting and side validation (bot.py
lines 712, 716-719, 725-728). -/
def tpFinal (pre : Precisions) (pair : String) : Direction → ℚ → ℚ
  | .LONG, e =>
    let t := format_price pre pair (tpRaw .LONG e)
    if t ≤ e then format_price pre pair (tpRaw .LONG e) else t
  | .SHORT, e =>
    let t := format_price pre pair (tpRaw .SHORT e)
    if e ≤ t then format_price pre pair (tpRaw .SHORT e) else t

/-- Side of the market entry order. -/
def entrySide : Direction → Side
  | .LONG => .BUY
  | .SHORT => .SELL

/-- Side of every position-reducing order (stop-loss, take-profit,
emergency close): opposite the entry side. -/
def closeSide : Direction → Side
  | .LONG => .SELL
  | .SHORT => .BUY

/-- The market entry request (bot.py lines 669-692). -/
def entryOrder (pair : String) (dir : Direction) (qty : ℚ) : OrderReq :=
  ⟨pair, entrySide dir, .MARKET, qty, none, none, false⟩

/-- The stop-loss request (bot.py lines 744-753, 765-774). -/
def slOrder (pair : String) (dir : Direction) (qty sl : ℚ) : OrderReq :=
  ⟨pair, closeSide dir, .STOP_MARKET, qty, none, some sl, true⟩

/-- The take-profit request (bot.py lines 754-763, 775-784). -/
def tpOrder (pair : String) (dir : Direction) (qty tp : ℚ) : OrderReq :=
  ⟨pair, closeSide dir, .LIMIT, qty, some tp, none, true⟩

/-- The emergency-close request issued when a protective order fails
(bot.py lines 787-805): reduce-only market order on the close side for
the full quantity. -/
def emergencyOrder (pair : String) (dir : Direction) (qty : ℚ) : OrderReq :=
  ⟨pair, closeSide dir, .MARKET, qty, none, none, true⟩

/-- The `TradeInfo` record committed at bot.py lines 811-820. -/
def mkTrade (pre : Precisions) (gw : Gateway) (d : Decision) (avg : ℚ) :
    TradeInfo :=
  ⟨d.direction, entryPriceOf gw avg,
   get_quantity pre d.pair gw.ticker,
   slFinal pre d.pair d.direction (entryPriceOf gw avg),
   tpFinal pre d.pair d.direction (entryPriceOf gw avg),
   d.confidence⟩

/-- `execute_scalping_trade` (bot.py lines 631-828), as a function from
the registry and the gateway oracle to the new registry together with the
list of `futures_create_order` calls attempted (in order).  Guards in
source order: capacity, per-pair uniqueness, ticker-price sanity; then
market entry, TP/SL calculation with validation, the final ≤ 0.01 price
check, protective placement with emergency close on failure, and the
commit to `active_trades`. -/
def execute_scalping_trade (pre : Precisions) (trades : Registry)
    (gw : Gateway) (d : Decision) : Registry × List OrderReq :=
  if max_concurrent_trades ≤ trades.length then (trades, [])
  else if (lookupTrade d.pair trades).isSome then (trades, [])
  else if gw.ticker ≤ 1/10 then (trades, [])
  else
    let quantity := get_quantity pre d.pair gw.ticker
    match gw.entryResult with
    | none => (trades, [entryOrder d.pair d.direction quantity])
    | some avg =>
      let entry_price := entryPriceOf gw avg
      let stop_loss := slFinal pre d.pair d.direction entry_price
      let take_profit := tpFinal pre d.pair d.direction entry_price
      let eo := entryOrder d.pair d.direction quantity
      if stop_loss ≤ 1/100 ∨ take_profit ≤ 1/100 then (trades, [eo])
      else if gw.slOk then
        if gw.tpOk then
          ((d.pair, mkTrade pre gw d avg) :: trades,
           [eo, slOrder d.pair d.direction quantity stop_loss,
            tpOrder d.pair d.direction quantity take_profit])
        else
          (trades,
           [eo, slOrder d.pair d.direction quantity stop_loss,
            tpOrder d.pair d.direction quantity take_profit,
            emergencyOrder d.pair d.direction quantity])
      else
        (trades,
         [eo, slOrder d.pair d.direction quantity stop_loss,
          emergencyOrder d.pair d.direction quantity])

/-- Gateway calls `check_scalping_trades` can make. -/
inductive RAction
  | queryPosition (pair : String)
  | cancelOrder (pair : String)
deriving DecidableEq, Repr

/-- Outcome of `futures_position_information` for one pair:
`.ok true` = a nonzero position exists, `.ok false` = no position,
`.error ()` = the call raises. -/
abbrev PollResult := Except Unit Bool

/-- Whether the loop body at bot.py lines 838-853 marks the pair
completed: the poll succeeded and found no nonzero position.  A raising
poll is caught and the pair is not marked. -/
def isCompleted (poll : String → PollResult) (p : String) : Bool :=
  match poll p with
  | .ok b => !b
  | .error _ => false

/-- `check_scalping_trades` (bot.py lines 830-863): poll every active
trade's position, collect the completed pairs, then delete them from
`active_trades`.  Returns the new registry and the gateway calls made;
the source issues exactly one position query per registered pair and
nothing else (it never cancels orders or queries order statuses). -/
def check_scalping_trades (trades : Registry)
    (poll : String → PollResult) : Registry × List RAction :=
  let completed := (trades.map Prod.fst).filter (isCompleted poll)
  (trades.filter (fun e => !(completed.contains e.1)),
   trades.map (fun e => RAction.queryPosition e.1))

/-- The registry invariant the spec states: keys are pairwise distinct
and the number of entries never exceeds `max_concurrent_trades`. -/
def RegistryWf (trades : Registry) : Prop :=
  (trades.map Prod.fst).Nodup ∧ trades.length ≤ max_concurrent_trades

/-! ### Helper lemmas -/

theorem lookupTrade_eq_none_iff (pair : String) (l : Registry) :
    lookupTrade pair l = none ↔ pair ∉ l.map Prod.fst := by
  induction l with
  | nil => simp [lookupTrade]
  | cons e rest ih =>
    by_cases h : e.1 = pair
    · simp [lookupTrade, h]
    · simp only [lookupTrade, if_neg h, List.map_cons, List.mem_cons, ih]
      constructor
      · rintro hn (rfl | hm)
        · exact h rfl
        · exact hn hm
      · intro hn hm
        exact hn (Or.inr hm)

/-- Case analysis on `execute_scalping_trade`: either the registry is
returned unchanged, or the guards all passed and the new trade was
consed on. -/
theorem execute_result (pre : Precisions) (trades : Registry)
    (gw : Gateway) (d : Decision) :
    (execute_scalping_trade pre trades gw d).1 = trades ∨
    (lookupTrade d.pair trades = none ∧
      trades.length < max_concurrent_trades ∧
      ∃ avg, gw.entryResult = some avg ∧
        (execute_scalping_trade pre trades gw d).1 =
          (d.pair, mkTrade pre gw d avg) :: trades) := by
  simp only [execute_scalping_trade]
  by_cases h1 : max_concurrent_trades ≤ trades.length
  · rw [if_pos h1]
    exact Or.inl rfl
  rw [if_neg h1]
  by_cases h2 : (lookupTrade d.pair trades).isSome = true
  · rw [if_pos h2]
    exact Or.inl rfl
  rw [if_neg h2]
  by_cases h3 : gw.ticker ≤ 1/10
  · rw [if_pos h3]
    exact Or.inl rfl
  rw [if_neg h3]
  cases hE : gw.entryResult with
  | none => exact Or.inl rfl
  | some avg =>
    dsimp only
    by_cases h4 :
        slFinal pre d.pair d.direction (entryPriceOf gw avg) ≤ 1/100 ∨
        tpFinal pre d.pair d.direction (entryPriceOf gw avg) ≤ 1/100
    · rw [if_pos h4]
      exact Or.inl rfl
    rw [if_neg h4]
    cases hsl : gw.slOk with
    | false => exact Or.inl rfl
    | true =>
      cases htp : gw.tpOk with
      | false => exact Or.inl rfl
      | true =>
        exact Or.inr ⟨Option.not_isSome_iff_eq_none.mp h2,
          not_le.mp h1, avg, rfl, rfl⟩

/-! ### Concrete fixtures used by witnesses and counterexamples -/

/-- Precision cache: quantity precision absent (default 2), price
precision 2 for every pair. -/
def preW2 : Precisions := ⟨fun _ => none, fun _ => some 2⟩

/-- Precision cache: quantity and price precision 0 for every pair
(integer step and tick, as for pairs whose LOT_SIZE step is `1`). -/
def preP0 : Precisions := ⟨fun _ => some 0, fun _ => some 0⟩

/-- A LONG decision on ETHUSDT. -/
def dLong : Decision := ⟨"ETHUSDT", .LONG, 80⟩

/-- A LONG decision on a pair absent from every hardcoded table. -/
def dFoo : Decision := ⟨"FOOUSDT", .LONG, 65⟩

/-- Gateway where everything works but the stop-loss placement raises. -/
def gwFailSL : Gateway := ⟨50, some 50, false, true⟩

/-- Gateway where the entry succeeds but reports `avgPrice = 0`. -/
def gwAvgZero : Gateway := ⟨50, some 0, true, true⟩

/-- Gateway where every call succeeds, filling at the ticker price 50. -/
def gwOk : Gateway := ⟨50, some 50, true, true⟩

/-- Gateway with ticker and fill price 10.4, all placements succeeding. -/
def gwC2 : Gateway := ⟨52/5, some (52/5), true, true⟩

/-- Gateway whose ticker price is 0.05. -/
def gwLow : Gateway := ⟨1/20, some (1/20), true, true⟩

/-- The trade record committed for `dLong` under `preW2` at price 50. -/
def tEth : TradeInfo := ⟨.LONG, 50, 3, 199/4, 252/5, 80⟩

/-- A registry holding one ADAUSDT trade. -/
def tradesW : Registry := [("ADAUSDT", ⟨.LONG, 1, 150, 1, 1, 70⟩)]

/-- Polling oracle: raises on ADAUSDT, reports no position elsewhere. -/
def pollErrAda : String → PollResult :=
  fun p => if p = "ADAUSDT" then .error () else .ok false

/-- Polling oracle: every position is gone. -/
def pollGone : String → PollResult := fun _ => .ok false

/-! ### Claim theorems -/

/-- Claim C10: whenever the exchange-reported ticker price for the pair
is ≤ 0.1, `execute_scalping_trade` returns before attempting any order
and leaves the active-trade registry unchanged. -/
theorem low_price_never_traded (pre : Precisions) (trades : Registry)
    (gw : Gateway) (d : Decision) (h : gw.ticker ≤ 1/10) :
    execute_scalping_trade pre trades gw d = (trades, []) := by
  simp only [execute_scalping_trade]
  by_cases h1 : max_concurrent_trades ≤ trades.length
  · rw [if_pos h1]
  · rw [if_neg h1]
    by_cases h2 : (lookupTrade d.pair trades).isSome = true
    · rw [if_pos h2]
    · rw [if_neg h2, if_pos h]

/-- Witness for C10 at ticker price 0.05. -/
theorem low_price_never_traded_witness :
    gwLow.ticker ≤ 1/10 ∧
    execute_scalping_trade preW2 [] gwLow dLong = ([], []) :=
  ⟨by norm_num [gwLow], low_price_never_traded preW2 [] gwLow dLong
    (by norm_num [gwLow])⟩

/-- Claim C3: both registry-mutating operations preserve the invariant
(at most one trade per instrument, at most `max_concurrent_trades`
entries), and a new trade is committed only when the instrument was free
and the registry was below capacity. -/
theorem registry_capacity_invariant (pre : Precisions) (trades : Registry)
    (gw : Gateway) (d : Decision) (poll : String → PollResult)
    (h : RegistryWf trades) :
    RegistryWf (execute_scalping_trade pre trades gw d).1 ∧
    RegistryWf (check_scalping_trades trades poll).1 ∧
    ((execute_scalping_trade pre trades gw d).1 ≠ trades →
      lookupTrade d.pair trades = none ∧
      trades.length < max_concurrent_trades) := by
  obtain ⟨hnd, hlen⟩ := h
  refine ⟨?_, ?_, ?_⟩
  · rcases execute_result pre trades gw d with heq | ⟨hfree, hcap, _, _, heq⟩
    · rw [heq]
      exact ⟨hnd, hlen⟩
    · rw [heq]
      refine ⟨?_, by simpa using hcap⟩
      exact List.nodup_cons.mpr ⟨(lookupTrade_eq_none_iff _ _).mp hfree, hnd⟩
  · constructor
    · exact hnd.sublist ((List.filter_sublist trades).map Prod.fst)
    · exact le_trans (List.filter_sublist trades).length_le hlen
  · intro hne
    rcases execute_result pre trades gw d with heq | ⟨hfree, hcap, _, _, _⟩
    · exact absurd heq hne
    · exact ⟨hfree, hcap⟩

/-- Witness for C3 on a one-entry registry. -/
theorem registry_capacity_invariant_witness :
    RegistryWf tradesW ∧
    (RegistryWf (execute_scalping_trade preW2 tradesW gwFailSL dLong).1 ∧
     RegistryWf (check_scalping_trades tradesW pollErrAda).1 ∧
     ((execute_scalping_trade preW2 tradesW gwFailSL dLong).1 ≠ tradesW →
       lookupTrade dLong.pair tradesW = none ∧
       tradesW.length < max_concurrent_trades)) :=
  ⟨⟨by decide, by decide⟩,
   registry_capacity_invariant preW2 tradesW gwFailSL dLong pollErrAda
     ⟨by decide, by decide⟩⟩

/-- Claim C1: when the entry has filled and stop-loss or take-profit
placement fails, the emergency close (reduce-only market order on the
opposite side for the full quantity) is submitted, and the trade is never
committed to `active_trades`. -/
theorem emergency_close_on_protective_failure (pre : Precisions)
    (trades : Registry) (gw : Gateway) (d : Decision) (avg : ℚ)
    (hcap : trades.length < max_concurrent_trades)
    (hfree : lookupTrade d.pair trades = none)
    (hpx : ¬ gw.ticker ≤ 1/10)
    (hentry : gw.entryResult = some avg)
    (hval : ¬ (slFinal pre d.pair d.direction (entryPriceOf gw avg) ≤ 1/100 ∨
               tpFinal pre d.pair d.direction (entryPriceOf gw avg) ≤ 1/100))
    (hfail : gw.slOk = false ∨ gw.tpOk = false) :
    (execute_scalping_trade pre trades gw d).1 = trades ∧
    emergencyOrder d.pair d.direction (get_quantity pre d.pair gw.ticker)
      ∈ (execute_scalping_trade pre trades gw d).2 := by
  simp only [execute_scalping_trade]
  rw [if_neg (not_le.mpr hcap), if_neg (by simp [hfree]), if_neg hpx, hentry]
  dsimp only
  rw [if_neg hval]
  rcases hfail with hf | hf
  · rw [hf]
    exact ⟨rfl, by simp⟩
  · cases hsl2 : gw.slOk with
    | false => exact ⟨rfl, by simp⟩
    | true =>
      rw [hf]
      exact ⟨rfl, by simp⟩

/-- Witness for C1: stop-loss placement fails after a fill at 50. -/
theorem emergency_close_on_protective_failure_witness :
    ([] : Registry).length < max_concurrent_trades ∧
    lookupTrade dLong.pair ([] : Registry) = none ∧
    ¬ gwFailSL.ticker ≤ 1/10 ∧
    gwFailSL.entryResult = some 50 ∧
    ¬ (slFinal preW2 dLong.pair dLong.direction (entryPriceOf gwFailSL 50) ≤ 1/100 ∨
       tpFinal preW2 dLong.pair dLong.direction (entryPriceOf gwFailSL 50) ≤ 1/100) ∧
    (gwFailSL.slOk = false ∨ gwFailSL.tpOk = false) ∧
    ((execute_scalping_trade preW2 [] gwFailSL dLong).1 = [] ∧
     emergencyOrder dLong.pair dLong.direction
         (get_quantity preW2 dLong.pair gwFailSL.ticker)
       ∈ (execute_scalping_trade preW2 [] gwFailSL dLong).2) := by
  have hval : ¬ (slFinal preW2 dLong.pair dLong.direction
        (entryPriceOf gwFailSL 50) ≤ 1/100 ∨
      tpFinal preW2 dLong.pair dLong.direction
        (entryPriceOf gwFailSL 50) ≤ 1/100) := by
    norm_num [slFinal, tpFinal, slRaw, tpRaw, format_price, pyRound, rhe,
      entryPriceOf, scalp_stop_loss, scalp_take_profit, preW2, gwFailSL, dLong]
  exact ⟨by decide, rfl, by norm_num [gwFailSL], rfl, hval, Or.inl rfl,
    emergency_close_on_protective_failure preW2 [] gwFailSL dLong 50
      (by decide) rfl (by norm_num [gwFailSL]) rfl hval (Or.inl rfl)⟩

/-- Membership in the registry after a reconciliation pass: an entry
survives exactly when its poll did not succeed with "no position". -/
theorem mem_check_iff (trades : Registry) (poll : String → PollResult)
    (e : String × TradeInfo) (he : e ∈ trades) :
    e ∈ (check_scalping_trades trades poll).1 ↔
      isCompleted poll e.1 = false := by
  simp only [check_scalping_trades]
  rw [List.mem_filter]
  have hk : e.1 ∈ trades.map Prod.fst := List.mem_map.mpr ⟨e, he, rfl⟩
  constructor
  · rintro ⟨-, hc⟩
    rw [Bool.not_eq_true'] at hc
    by_contra hnc
    rw [Bool.not_eq_false] at hnc
    have hmem2 : e.1 ∈ (trades.map Prod.fst).filter (isCompleted poll) :=
      List.mem_filter.mpr ⟨hk, hnc⟩
    have hct : ((trades.map Prod.fst).filter
        (isCompleted poll)).contains e.1 = true := List.elem_iff.mpr hmem2
    rw [hc] at hct
    cases hct
  · intro hnc
    refine ⟨he, ?_⟩
    rw [Bool.not_eq_true']
    by_contra hc
    rw [Bool.not_eq_false] at hc
    have hmem2 : e.1 ∈ (trades.map Prod.fst).filter (isCompleted poll) :=
      List.elem_iff.mp hc
    rw [(List.mem_filter.mp hmem2).2] at hnc
    cases hnc

/-- Claim C9: every registered instrument is polled in the pass
(an error on one pair does not stop the others), and a pair whose poll
raised is kept in the registry to be re-checked next cycle. -/
theorem reconciliation_isolates_failures (trades : Registry)
    (poll : String → PollResult) (pair : String)
    (hmem : pair ∈ trades.map Prod.fst) :
    RAction.queryPosition pair ∈ (check_scalping_trades trades poll).2 ∧
    (poll pair = .error () →
      pair ∈ (check_scalping_trades trades poll).1.map Prod.fst) := by
  rcases List.mem_map.mp hmem with ⟨e, he, rfl⟩
  constructor
  · simp only [check_scalping_trades]
    exact List.mem_map.mpr ⟨e, he, rfl⟩
  · intro herr
    refine List.mem_map.mpr ⟨e, ?_, rfl⟩
    rw [mem_check_iff trades poll e he]
    simp [isCompleted, herr]

/-- Witness for C9: ADAUSDT's poll raises while the other pair's poll
succeeds; ADAUSDT is still queried and kept. -/
theorem reconciliation_isolates_failures_witness :
    "ADAUSDT" ∈ tradesW.map Prod.fst ∧
    (RAction.queryPosition "ADAUSDT"
        ∈ (check_scalping_trades tradesW pollErrAda).2 ∧
     (pollErrAda "ADAUSDT" = .error () →
       "ADAUSDT" ∈ (check_scalping_trades tradesW pollErrAda).1.map Prod.fst)) :=
  ⟨by decide,
   reconciliation_isolates_failures tradesW pollErrAda "ADAUSDT" (by decide)⟩

/-- Claim C7 amended: when a registered trade's position is gone the pass
removes the entry, and the only gateway calls a pass ever makes are the
per-pair position queries — it cancels no orders. -/
theorem reconciliation_removes_without_cancel (trades : Registry)
    (poll : String → PollResult) (e : String × TradeInfo) (he : e ∈ trades) :
    (e ∈ (check_scalping_trades trades poll).1 ↔
      isCompleted poll e.1 = false) ∧
    (∀ p, RAction.cancelOrder p ∉ (check_scalping_trades trades poll).2) := by
  refine ⟨mem_check_iff trades poll e he, ?_⟩
  intro p hp
  simp only [check_scalping_trades] at hp
  rcases List.mem_map.mp hp with ⟨f, -, hf⟩
  cases hf

/-- Witness for C7's amended statement on a one-entry registry. -/
theorem reconciliation_removes_without_cancel_witness :
    ("ETHUSDT", tEth) ∈ [("ETHUSDT", tEth)] ∧
    ((("ETHUSDT", tEth) ∈
        (check_scalping_trades [("ETHUSDT", tEth)] pollGone).1 ↔
      isCompleted pollGone ("ETHUSDT", tEth).1 = false) ∧
     (∀ p, RAction.cancelOrder p ∉
        (check_scalping_trades [("ETHUSDT", tEth)] pollGone).2)) :=
  ⟨List.mem_singleton.mpr rfl,
   reconciliation_removes_without_cancel [("ETHUSDT", tEth)] pollGone
     ("ETHUSDT", tEth) (List.mem_singleton.mpr rfl)⟩

/-- Counterexample to claim C7 as stated: the position for the registered
ETHUSDT trade is gone, yet the pass issues only the position query —
no protective order is cancelled and no order status is read — and simply
deletes the entry. -/
theorem reconciliation_no_cancel_cex :
    (check_scalping_trades [("ETHUSDT", tEth)] pollGone).1 = [] ∧
    (check_scalping_trades [("ETHUSDT", tEth)] pollGone).2 =
      [RAction.queryPosition "ETHUSDT"] := by
  constructor <;> rfl

/-- Claim C8 amended: the committed `entry_price` equals the gateway's
reported average fill price when that price exceeds 0.1, and otherwise
falls back to the ticker price read before submission. -/
theorem entry_price_fallback (pre : Precisions) (trades : Registry)
    (gw : Gateway) (d : Decision) (avg : ℚ) (t : TradeInfo)
    (hfree : lookupTrade d.pair trades = none)
    (hentry : gw.entryResult = some avg)
    (hcommit : lookupTrade d.pair
      (execute_scalping_trade pre trades gw d).1 = some t) :
    t.entry_price = if avg ≤ 1/10 then gw.ticker else avg := by
  rcases execute_result pre trades gw d with heq | ⟨-, -, avg2, hE2, heq⟩
  · rw [heq, hfree] at hcommit
    cases hcommit
  · rw [hentry] at hE2
    have havg : avg2 = avg := (Option.some.injEq _ _).mp hE2.symm
    rw [havg] at heq
    rw [heq] at hcommit
    simp only [lookupTrade, eq_self_iff_true, if_true] at hcommit
    obtain rfl : mkTrade pre gw d avg = t :=
      (Option.some.injEq _ _).mp hcommit
    rfl

/-- Evaluation of the sequencer when the entry order reports
`avgPrice = 0` at ticker 50: the committed record carries entry price 50.
Used by the C8 witness and counterexample. -/
theorem execute_avgZero_eval :
    (execute_scalping_trade preW2 [] gwAvgZero dLong).1 =
      [("ETHUSDT", tEth)] := by
  have hmin : get_minimum_quantity "ETHUSDT" = 1/1000 := by
    simp [get_minimum_quantity]
  norm_num [execute_scalping_trade, get_quantity, pyRound, rhe,
    trade_size_usd, slFinal, tpFinal, slRaw, tpRaw, format_price,
    entryPriceOf, scalp_stop_loss, scalp_take_profit, max_concurrent_trades,
    lookupTrade, preW2, gwAvgZero, dLong, tEth, mkTrade, hmin]

/-- Witness for C8's amended statement: a fill whose reported average
price is genuine (avg = 50 > 0.1) is stored as reported. -/
theorem entry_price_fallback_witness :
    lookupTrade dLong.pair ([] : Registry) = none ∧
    gwOk.entryResult = some 50 ∧
    lookupTrade dLong.pair
      (execute_scalping_trade preW2 [] gwOk dLong).1 = some tEth ∧
    tEth.entry_price = if (50:ℚ) ≤ 1/10 then gwOk.ticker else 50 := by
  have hcommit : lookupTrade dLong.pair
      (execute_scalping_trade preW2 [] gwOk dLong).1 = some tEth := by
    have hmin : get_minimum_quantity "ETHUSDT" = 1/1000 := by
      simp [get_minimum_quantity]
    norm_num [execute_scalping_trade, get_quantity, pyRound, rhe,
      trade_size_usd, slFinal, tpFinal, slRaw, tpRaw, format_price,
      entryPriceOf, scalp_stop_loss, scalp_take_profit,
      max_concurrent_trades, lookupTrade, preW2, gwOk, dLong,
      tEth, mkTrade, hmin]
  exact ⟨rfl, rfl, hcommit,
    entry_price_fallback preW2 [] gwOk dLong 50 tEth rfl rfl hcommit⟩

/-- Counterexample to claim C8 as stated: the gateway reports
`avgPrice = 0` for the filled entry, and the committed `entry_price` is
the pre-submission ticker price 50, not the reported average price. -/
theorem entry_price_not_avg_cex :
    gwAvgZero.entryResult = some 0 ∧
    lookupTrade "ETHUSDT"
      (execute_scalping_trade preW2 [] gwAvgZero dLong).1 = some tEth ∧
    tEth.entry_price = gwAvgZero.ticker ∧ tEth.entry_price ≠ 0 := by
  refine ⟨rfl, ?_, rfl, by norm_num [tEth]⟩
  rw [execute_avgZero_eval]
  simp [lookupTrade]

/-- The integer returned by `rhe` is within one half of its argument. -/
theorem rhe_close (x : ℚ) : |(rhe x : ℚ) - x| ≤ 1/2 := by
  have h1 : (Int.floor x : ℚ) ≤ x := Int.floor_le x
  have h2 : x < Int.floor x + 1 := Int.lt_floor_add_one x
  unfold rhe
  dsimp only
  split_ifs with hlt hgt hev
  all_goals rw [abs_le] ; push_cast ; constructor <;> linarith

/-- `pyRound x p` is within half a step `10 ^ (-p)` of `x`. -/
theorem pyRound_close (x : ℚ) (p : ℕ) :
    |pyRound x p - x| ≤ 1 / (2 * 10 ^ p) := by
  have h10 : (0:ℚ) < 10 ^ p := by positivity
  have hre := rhe_close (x * 10 ^ p)
  have hsplit : pyRound x p - x =
      ((rhe (x * 10 ^ p) : ℚ) - x * 10 ^ p) / 10 ^ p := by
    rw [pyRound]
    field_simp
    ring
  rw [hsplit, abs_div, abs_of_pos h10]
  rw [div_le_iff₀ h10]
  calc |(rhe (x * 10 ^ p) : ℚ) - x * 10 ^ p| ≤ 1/2 := hre
    _ = 1 / (2 * 10 ^ p) * 10 ^ p := by
        field_simp

/-- Claim C5 amended: the raw-quantity conversion step of `get_quantity`
rounds half-to-even at the pair's quantity precision — the result is an
integer multiple of the step `10 ^ (-p)` and differs from the raw
quantity by at most half a step, so it may round upward, but never by
more than half a step. -/
theorem quantity_rounding_nearest (pre : Precisions) (pair : String)
    (price : ℚ) :
    (∃ k : ℤ, pyRound (trade_size_usd / price) ((pre.qty pair).getD 2) =
      (k : ℚ) / 10 ^ ((pre.qty pair).getD 2)) ∧
    |pyRound (trade_size_usd / price) ((pre.qty pair).getD 2) -
        trade_size_usd / price| ≤
      1 / (2 * 10 ^ ((pre.qty pair).getD 2)) :=
  ⟨⟨rhe (trade_size_usd / price * 10 ^ ((pre.qty pair).getD 2)), rfl⟩,
   pyRound_close _ _⟩

/-- Counterexample to claim C5 as stated: at price 9000 the raw quantity
is 1/60 ≈ 0.0167, flooring to the 0.01 step would give 0.01, but
`get_quantity` returns 0.02 — strictly above the raw quantity, so the
conversion rounded the quantity upward. -/
theorem quantity_rounds_up_cex :
    get_quantity preW2 "FOOUSDT" 9000 = 1/50 ∧
    trade_size_usd / 9000 < 1/50 ∧
    specFloorToStep (trade_size_usd / 9000) (1/100) = 1/100 := by
  have hmin : get_minimum_quantity "FOOUSDT" = 1/100 := by
    simp [get_minimum_quantity]
  refine ⟨?_, ?_, ?_⟩
  · norm_num [get_quantity, pyRound, rhe, trade_size_usd, preW2, hmin]
  · norm_num [trade_size_usd]
  · norm_num [specFloorToStep, trade_size_usd]

/-- Claim C4 (code-bug evaluation): `get_quantity` has no error path at
all — it always returns a quantity — and at integer quantity precision
with price 260 it returns quantity 1, whose notional $260 exceeds the
requested $150 by 73%, far beyond a 25% tolerance, with no
`NotionalTooSmall` failure. -/
theorem quantity_no_tolerance_check :
    get_quantity preP0 "FOOUSDT" 260 = 1 ∧
    (1:ℚ) * 260 > trade_size_usd * (1 + 25/100) := by
  have hmin : get_minimum_quantity "FOOUSDT" = 1/100 := by
    simp [get_minimum_quantity]
  constructor
  · norm_num [get_quantity, pyRound, rhe, trade_size_usd, preP0, hmin]
  · norm_num [trade_size_usd]

/-- Claim C6 (code-bug evaluation): for an integer-step pair (quantity
precision 0, step 1) at price 10000, the minimum-quantity override
returns 0.01, which is not an integer multiple of the step. -/
theorem min_qty_breaks_step :
    get_quantity preP0 "FOOUSDT" 10000 = 1/100 ∧
    ¬ ∃ k : ℤ, (1/100 : ℚ) = (k : ℚ) * 1 := by
  constructor
  · have hmin : get_minimum_quantity "FOOUSDT" = 1/100 := by
      simp [get_minimum_quantity]
    norm_num [get_quantity, pyRound, rhe, trade_size_usd, preP0, hmin]
  · rintro ⟨k, hk⟩
    rw [mul_one] at hk
    have h2 : ((100 * k : ℤ) : ℚ) = 1 := by push_cast ; linarith
    have h3 : (100 * k : ℤ) = 1 := by exact_mod_cast h2
    omega

/-- Claim C2 (code-bug evaluation): with integer price precision and a
fill at 10.4, the committed LONG trade has take-profit 10 = stop-loss 10,
not strictly above the entry 10.4 — the recalculated take-profit is
re-formatted without being re-validated before commit. -/
theorem committed_tp_not_above_entry :
    lookupTrade "FOOUSDT" (execute_scalping_trade preP0 [] gwC2 dFoo).1 =
      some ⟨.LONG, 52/5, 14, 10, 10, 65⟩ ∧
    ¬ ((52:ℚ)/5 < 10) := by
  constructor
  · have hmin : get_minimum_quantity "FOOUSDT" = 1/100 := by
      simp [get_minimum_quantity]
    norm_num [execute_scalping_trade, get_quantity, pyRound, rhe,
      trade_size_usd, slFinal, tpFinal, slRaw, tpRaw, format_price,
      entryPriceOf, scalp_stop_loss, scalp_take_profit,
      max_concurrent_trades, lookupTrade, preP0, gwC2, dFoo, mkTrade, hmin]
  · norm_num

end Sniper
